import Mathlib

/-!
Verification of the Strides value type and the elementwise loss routines of
this ChainerX/xChainer slice.

The Strides implementation itself (strides.h / strides.cc) is not present in
this snapshot; only its conformance test (`StridesTest` in the xchainer
namespace) is.  The Strides definitions below are therefore modelled from the
specification (spec.md §3, §4, §6, §7), faithful to its words, and checked
against the behaviour pinned down by the conformance test.

The loss routines (`AbsoluteError`, `SquaredError`, `SigmoidCrossEntropy`, ...)
are present in chainerx/routines/loss.cc and are embedded directly; their
elementwise array primitives (`Absolute`, `Square`, `NotEqual`, `Where`, ...)
are external collaborators described in spec.md §6 and are modelled as
pointwise operations on real-valued arrays of a fixed index size.
-/

namespace xchainer

/-- Modelled from the spec: `kMaxNdim` is the fixed upper bound on axis count
(spec.md §6).  The conformance test pins `kMaxNdim + 1 = 9` as the failing
length, so the bound is 8, matching the common choice named in spec.md §9. -/
def kMaxNdim : Nat := 8

/-- Modelled from the spec: `DimensionError` is the sole failure kind raised by
this core; it carries a descriptive message (spec.md §6, §7). -/
inductive XchainerError where
  | dimensionError (msg : String)
deriving DecidableEq

/-- Modelled from the spec: a Strides value is an ordered sequence of signed
integers, one per axis, with invariant I1: `0 ≤ ndim ≤ kMaxNdim`
(spec.md §3).  Values are unconstrained signed integers (invariant I2). -/
structure Strides where
  values : List Int
  isValid : values.length ≤ kMaxNdim

/-- Number of axes: the length of the stored sequence (spec.md §4.2). -/
def Strides.ndim (s : Strides) : Nat := s.values.length

/-- `size()` returns the same count as `ndim()`, as an unsigned value
(spec.md §4.2). -/
def Strides.size (s : Strides) : Nat := s.values.length

/-- Read-only view accessor: the contents as a contiguous sequence
(spec.md §4.2, `strides.span()` in the conformance test). -/
def Strides.span (s : Strides) : List Int := s.values

/-- Forward iteration (`begin()`/`end()`): the values in axis order
`0..ndim-1` (spec.md §4.3). -/
def Strides.iterForward (s : Strides) : List Int := s.values

/-- Reverse iteration (`rbegin()`/`rend()`): the values in axis order
`ndim-1..0` (spec.md §4.3). -/
def Strides.iterReversed (s : Strides) : List Int := s.values.reverse

def tooManyDimsMsg : String := "too many dimensions"

/-- Modelled from the spec: the canonical validating constructor.  Every
sequence-like construction form normalizes its input into one ordered list and
delegates here (spec.md §9); the length-vs-bound check happens before any
value is stored, so construction is all-or-nothing (spec.md §4.1). -/
def Strides.ofSeq (l : List Int) : Except XchainerError Strides :=
  if h : l.length ≤ kMaxNdim then .ok ⟨l, h⟩
  else .error (.dimensionError tooManyDimsMsg)

/-- Modelled from the spec: construction from a literal / initializer list
(spec.md §4.1, "Literal/list" form). -/
def Strides.ofList (l : List Int) : Except XchainerError Strides := Strides.ofSeq l

/-- Modelled from the spec: construction from an iterator range, the begin/end
pair modelled by the list of values in traversal order (spec.md §4.1,
"Range" form). -/
def Strides.ofRange (l : List Int) : Except XchainerError Strides := Strides.ofSeq l

/-- Modelled from the spec: construction from a contiguous read-only view
(gsl::span), modelled by the list of viewed values (spec.md §4.1,
"View" form). -/
def Strides.ofSpan (l : List Int) : Except XchainerError Strides := Strides.ofSeq l

/-- The result of a fallible operation failed with a `DimensionError`. -/
def isDimensionError {α : Type} (r : Except XchainerError α) : Prop :=
  ∃ m, r = .error (.dimensionError m)

/-- A conformance-test sequence: `{48, 16, 4}`. -/
def demoStrides : Strides := ⟨[48, 16, 4], by decide⟩

/-- The empty strides value, as produced by the default constructor. -/
def emptyStrides : Strides := ⟨[], by decide⟩

/-- C1: for every axis count `k` with `0 ≤ k ≤ kMaxNdim`, constructing a
Strides from `k` integer values succeeds with `ndim() == k`, and a length of
`kMaxNdim + 1` fails with `DimensionError`, independently for each of the
three construction forms: literal/initializer-list, iterator range, and
contiguous view (span). -/
theorem strides_ctor_boundary (l : List Int) :
    (l.length ≤ kMaxNdim →
      ∃ s : Strides,
        Strides.ofList l = .ok s ∧ Strides.ofRange l = .ok s ∧
        Strides.ofSpan l = .ok s ∧ s.ndim = l.length) ∧
    (l.length = kMaxNdim + 1 →
      isDimensionError (Strides.ofList l) ∧
      isDimensionError (Strides.ofRange l) ∧
      isDimensionError (Strides.ofSpan l)) := by
  constructor
  · intro h
    exact ⟨⟨l, h⟩, by simp [Strides.ofList, Strides.ofSeq, h],
      by simp [Strides.ofRange, Strides.ofSeq, h],
      by simp [Strides.ofSpan, Strides.ofSeq, h], rfl⟩
  · intro h
    have h2 : ¬ l.length ≤ kMaxNdim := by omega
    refine ⟨⟨tooManyDimsMsg, ?_⟩, ⟨tooManyDimsMsg, ?_⟩, ⟨tooManyDimsMsg, ?_⟩⟩ <;>
      simp [Strides.ofList, Strides.ofRange, Strides.ofSpan, Strides.ofSeq, h2]

/-- C1 witness: the boundary at the concrete inputs of the conformance test:
`{48, 16, 4}` (length 3 ≤ kMaxNdim) succeeds with ndim 3, and the 9-element
sequence `{1, ..., 9}` (length kMaxNdim + 1) fails for all three forms. -/
theorem strides_ctor_boundary_witness :
    (([48, 16, 4] : List Int).length ≤ kMaxNdim ∧
      ∃ s : Strides,
        Strides.ofList [48, 16, 4] = .ok s ∧ Strides.ofRange [48, 16, 4] = .ok s ∧
        Strides.ofSpan [48, 16, 4] = .ok s ∧ s.ndim = ([48, 16, 4] : List Int).length) ∧
    (([1, 2, 3, 4, 5, 6, 7, 8, 9] : List Int).length = kMaxNdim + 1 ∧
      isDimensionError (Strides.ofList [1, 2, 3, 4, 5, 6, 7, 8, 9]) ∧
      isDimensionError (Strides.ofRange [1, 2, 3, 4, 5, 6, 7, 8, 9]) ∧
      isDimensionError (Strides.ofSpan [1, 2, 3, 4, 5, 6, 7, 8, 9])) :=
  ⟨⟨by decide, (strides_ctor_boundary [48, 16, 4]).1 (by decide)⟩,
   ⟨by decide, (strides_ctor_boundary [1, 2, 3, 4, 5, 6, 7, 8, 9]).2 (by decide)⟩⟩

/-- Modelled from the spec: the Shape collaborator is a bounded sequence of
axis extents sharing the `kMaxNdim` discipline with Strides (spec.md §2, §6). -/
structure Shape where
  values : List Int
  isValid : values.length ≤ kMaxNdim

/-- Modelled from the spec: the Dtype collaborator, an element type descriptor
exposing a byte width (spec.md §6; the conformance test uses `Dtype::kInt32`). -/
inductive Dtype where
  | kBool
  | kInt8
  | kInt16
  | kInt32
  | kInt64
  | kUInt8
  | kFloat32
  | kFloat64
deriving DecidableEq

/-- Modelled from the spec: the item byte-size lookup keyed by the dtype
identifier (spec.md §6). -/
def Dtype.itemSize : Dtype → Int
  | .kBool => 1
  | .kInt8 => 1
  | .kInt16 => 2
  | .kInt32 => 4
  | .kInt64 => 8
  | .kUInt8 => 1
  | .kFloat32 => 4
  | .kFloat64 => 8

/-- Modelled from the spec: row-major derivation — the stride of an axis
equals the product of the extents of all axes to its right, scaled by the
element size; for `n = 0` the result is the empty sequence (spec.md §4.1). -/
def contiguousStrides (shape : List Int) (itemSize : Int) : List Int :=
  match shape with
  | [] => []
  | _ :: tail => (itemSize * tail.prod) :: contiguousStrides tail itemSize

theorem contiguousStrides_length (shape : List Int) (itemSize : Int) :
    (contiguousStrides shape itemSize).length = shape.length := by
  induction shape with
  | nil => rfl
  | cons a tail ih => simp [contiguousStrides, ih]

/-- Modelled from the spec: the Shape + item-size construction form derives
contiguous row-major strides; it inherits Shape's already-validated length
(spec.md §4.1). -/
def Strides.ofShape (shape : Shape) (itemSize : Int) : Strides :=
  ⟨contiguousStrides shape.values itemSize,
    (contiguousStrides_length shape.values itemSize) ▸ shape.isValid⟩

/-- Modelled from the spec: the Shape + dtype construction form resolves the
item size via the dtype's byte width, then delegates to the Shape + item-size
form (spec.md §4.1). -/
def Strides.ofShapeDtype (shape : Shape) (dtype : Dtype) : Strides :=
  Strides.ofShape shape dtype.itemSize

/-- The conformance-test shape `{2, 3, 4}`. -/
def shape234 : Shape := ⟨[2, 3, 4], by decide⟩

theorem Strides.ofShape_values (shape : Shape) (itemSize : Int) :
    (Strides.ofShape shape itemSize).values = contiguousStrides shape.values itemSize :=
  rfl

theorem contiguousStrides_getD (shape : List Int) (itemSize : Int) :
    ∀ i : Nat, i < shape.length →
      (contiguousStrides shape itemSize).getD i 0 =
        itemSize * (shape.drop (i + 1)).prod := by
  induction shape with
  | nil => intro i h; simp at h
  | cons a tail ih =>
    intro i h
    cases i with
    | zero => simp [contiguousStrides]
    | succ j =>
      have hj : j < tail.length := by simpa using h
      simpa [contiguousStrides] using ih j hj

/-- C2: constructing a Strides from a shape `s[0..n)` and element byte size `e`
yields exactly the row-major contiguous strides: `stride[n-1] = e`,
`stride[i] = stride[i+1] * s[i+1]` for `i = n-2 .. 0` (equivalently
`stride[i] = e` times the product of all extents to the right of axis `i`);
for `n = 0` the result is empty; in particular shape `{2,3,4}` with item size
`4` yields `(48, 16, 4)`. -/
theorem strides_from_shape_row_major (shape : Shape) (e : Int) :
    (Strides.ofShape shape e).ndim = shape.values.length ∧
    (∀ i : Nat, i < shape.values.length →
      (Strides.ofShape shape e).values.getD i 0 =
        e * (shape.values.drop (i + 1)).prod) ∧
    (shape.values ≠ [] →
      (Strides.ofShape shape e).values.getD (shape.values.length - 1) 0 = e) ∧
    (∀ i : Nat, i + 1 < shape.values.length →
      (Strides.ofShape shape e).values.getD i 0 =
        (Strides.ofShape shape e).values.getD (i + 1) 0 *
          shape.values.getD (i + 1) 0) ∧
    (shape.values = [] → (Strides.ofShape shape e).values = []) ∧
    (Strides.ofShape shape234 4).values = [48, 16, 4] := by
  refine ⟨contiguousStrides_length shape.values e, ?_, ?_, ?_, ?_, by decide⟩
  · intro i h
    exact contiguousStrides_getD shape.values e i h
  · intro hne
    have hlen : 0 < shape.values.length := List.length_pos.mpr hne
    have h := contiguousStrides_getD shape.values e (shape.values.length - 1)
      (by omega)
    have hdrop : shape.values.length - 1 + 1 = shape.values.length := by omega
    rw [Strides.ofShape_values, h, hdrop, List.drop_length]
    simp
  · intro i h
    have h1 := contiguousStrides_getD shape.values e i (by omega)
    have h2 := contiguousStrides_getD shape.values e (i + 1) h
    have hdrop : shape.values.drop (i + 1) =
        shape.values[i + 1] :: shape.values.drop (i + 2) :=
      List.drop_eq_getElem_cons h
    have hgd : shape.values.getD (i + 1) 0 = shape.values[i + 1] := by
      simp [List.getD_eq_getElem?_getD, List.getElem?_eq_getElem h]
    rw [Strides.ofShape_values, h1, h2, hdrop, hgd, List.prod_cons]
    ring
  · intro hnil
    simp [Strides.ofShape, hnil, contiguousStrides]

/-- C2 witness: at shape `{2,3,4}` and item size `4`, the strides are
`(48, 16, 4)`, the last stride is `4`, and `stride[0] = stride[1] * s[1]`. -/
theorem strides_from_shape_row_major_witness :
    (Strides.ofShape shape234 4).ndim = shape234.values.length ∧
    (0 < shape234.values.length ∧
      (Strides.ofShape shape234 4).values.getD 0 0 =
        4 * (shape234.values.drop 1).prod) ∧
    (shape234.values ≠ [] ∧
      (Strides.ofShape shape234 4).values.getD (shape234.values.length - 1) 0 = 4) ∧
    (0 + 1 < shape234.values.length ∧
      (Strides.ofShape shape234 4).values.getD 0 0 =
        (Strides.ofShape shape234 4).values.getD 1 0 * shape234.values.getD 1 0) ∧
    (Strides.ofShape shape234 4).values = [48, 16, 4] :=
  ⟨(strides_from_shape_row_major shape234 4).1,
   ⟨by decide, (strides_from_shape_row_major shape234 4).2.1 0 (by decide)⟩,
   ⟨by decide, (strides_from_shape_row_major shape234 4).2.2.1 (by decide)⟩,
   ⟨by decide, (strides_from_shape_row_major shape234 4).2.2.2.1 0 (by decide)⟩,
   (strides_from_shape_row_major shape234 4).2.2.2.2.2⟩

def indexOutOfBoundsMsg : String := "index out of bounds"

/-- Modelled from the spec: indexed read `at(i)` returns the stride of axis
`i`, and fails with `DimensionError` if `i < 0` or `i ≥ ndim`; bounds are
checked on every access, never silently clamped or wrapped (spec.md §4.2). -/
def Strides.subscript (s : Strides) (i : Int) : Except XchainerError Int :=
  if 0 ≤ i ∧ i < (s.ndim : Int) then .ok (s.values.getD i.toNat 0)
  else .error (.dimensionError indexOutOfBoundsMsg)

/-- Modelled from the spec: structural equality `a == b` — true iff the two
stored sequences are equal (spec.md §4.2). -/
def Strides.opEq (a b : Strides) : Bool := a.values == b.values

theorem Strides.eq_iff {a b : Strides} : a = b ↔ a.values = b.values := by
  cases a; cases b; simp

instance : DecidableEq Strides := fun a b =>
  decidable_of_iff (a.values = b.values) Strides.eq_iff.symm

def checkEqualMsg : String := "strides mismatched"

/-- Modelled from the spec: `CheckEqual(a, b)` — an assertion-style operation
with no return value on success; fails with `DimensionError` exactly when
`a != b` (spec.md §4.2). -/
def CheckEqual (lhs rhs : Strides) : Except XchainerError Unit :=
  if lhs.opEq rhs then .ok () else .error (.dimensionError checkEqualMsg)

/-- C3: for every Strides value and integer index `i`, indexed read returns
the stored stride of axis `i` when `0 ≤ i < ndim`, and fails with
`DimensionError` when `i < 0` or `i ≥ ndim`; in particular `-1` and `ndim`
both fail, and out-of-range indices are never clamped or wrapped. -/
theorem strides_subscript_spec (s : Strides) (i : Int) :
    (0 ≤ i → i < (s.ndim : Int) →
      s.subscript i = .ok (s.values.getD i.toNat 0)) ∧
    (i < 0 ∨ (s.ndim : Int) ≤ i → isDimensionError (s.subscript i)) ∧
    isDimensionError (s.subscript (-1)) ∧
    isDimensionError (s.subscript (s.ndim : Int)) := by
  refine ⟨?_, ?_, ?_, ?_⟩
  · intro h1 h2
    simp [Strides.subscript, h1, h2]
  · intro h
    have hn : ¬ (0 ≤ i ∧ i < (s.ndim : Int)) := by omega
    exact ⟨indexOutOfBoundsMsg, by simp [Strides.subscript, hn]⟩
  · exact ⟨indexOutOfBoundsMsg, by simp [Strides.subscript]⟩
  · exact ⟨indexOutOfBoundsMsg, by simp [Strides.subscript]⟩

/-- C3 witness: on `{48, 16, 4}`, index 1 reads back 16, while index `-1` and
index `ndim = 3` fail with `DimensionError`. -/
theorem strides_subscript_spec_witness :
    ((0 : Int) ≤ 1 ∧ (1 : Int) < (demoStrides.ndim : Int) ∧
      demoStrides.subscript 1 = .ok 16) ∧
    isDimensionError (demoStrides.subscript (-1)) ∧
    isDimensionError (demoStrides.subscript (demoStrides.ndim : Int)) :=
  ⟨⟨by decide, by decide,
      (strides_subscript_spec demoStrides 1).1 (by decide) (by decide)⟩,
   (strides_subscript_spec demoStrides 1).2.2.1,
   (strides_subscript_spec demoStrides 1).2.2.2⟩

/-- C4: `a == b` is true iff `a.ndim == b.ndim` and every corresponding pair
of stored values is equal (any length mismatch or differing element makes them
unequal), and this equality relation is reflexive, symmetric, and transitive. -/
theorem strides_op_eq_structural (a b c : Strides) :
    (a.opEq b = true ↔
      a.ndim = b.ndim ∧
        ∀ i : Nat, i < a.ndim → a.values.getD i 0 = b.values.getD i 0) ∧
    a.opEq a = true ∧
    (a.opEq b = true → b.opEq a = true) ∧
    (a.opEq b = true → b.opEq c = true → a.opEq c = true) := by
  have key : ∀ x y : Strides, x.opEq y = true ↔ x.values = y.values := by
    intro x y
    simp [Strides.opEq]
  refine ⟨?_, ?_, ?_, ?_⟩
  · rw [key]
    constructor
    · intro h
      have h2 : a = b := Strides.eq_iff.mpr h
      subst h2
      exact ⟨rfl, fun i _ => rfl⟩
    · rintro ⟨hlen, helem⟩
      refine List.ext_getElem hlen ?_
      intro n h1 h2
      have := helem n h1
      simpa [List.getD_eq_getElem?_getD, List.getElem?_eq_getElem,
        h1, h2] using this
  · rw [key]
  · rw [key, key]
    exact Eq.symm
  · rw [key, key, key]
    exact Eq.trans

/-- C4 witness: on the conformance-test values, `{48,16,4} == {48,16,4}` via
structural characterization, symmetry, and transitivity at concrete inputs. -/
theorem strides_op_eq_structural_witness :
    (demoStrides.opEq demoStrides = true ↔
      demoStrides.ndim = demoStrides.ndim ∧
        ∀ i : Nat, i < demoStrides.ndim →
          demoStrides.values.getD i 0 = demoStrides.values.getD i 0) ∧
    demoStrides.opEq demoStrides = true ∧
    (demoStrides.opEq demoStrides = true →
      demoStrides.opEq demoStrides = true) ∧
    demoStrides.opEq demoStrides = true :=
  ⟨(strides_op_eq_structural demoStrides demoStrides demoStrides).1,
   (strides_op_eq_structural demoStrides demoStrides demoStrides).2.1,
   (strides_op_eq_structural demoStrides demoStrides demoStrides).2.2.1,
   (strides_op_eq_structural demoStrides demoStrides demoStrides).2.2.2
     (strides_op_eq_structural demoStrides demoStrides demoStrides).2.1
     (strides_op_eq_structural demoStrides demoStrides demoStrides).2.1⟩

/-- A second, independently built copy of `{48, 16, 4}`. -/
def demoStrides2 : Strides := ⟨[48, 16, 4], by decide⟩

/-- C5: `CheckEqual(a, b)` returns nothing (no observable effect) when
`a == b` and fails with `DimensionError` exactly when `a != b`; in particular
it succeeds for two equal three-element sequences and fails for `{48,16,4}`
versus the empty sequence. -/
theorem strides_check_equal_spec (a b : Strides) :
    (a = b → CheckEqual a b = .ok ()) ∧
    (a ≠ b → isDimensionError (CheckEqual a b)) ∧
    CheckEqual demoStrides demoStrides2 = .ok () ∧
    isDimensionError (CheckEqual demoStrides emptyStrides) := by
  refine ⟨?_, ?_, rfl, ⟨checkEqualMsg, rfl⟩⟩
  · intro h
    subst h
    simp [CheckEqual, Strides.opEq]
  · intro h
    have hv : a.values ≠ b.values := fun hh => h (Strides.eq_iff.mpr hh)
    exact ⟨checkEqualMsg, by simp [CheckEqual, Strides.opEq, hv]⟩

/-- C5 witness: `CheckEqual` at the concrete conformance-test inputs — equal
three-element sequences succeed, `{48,16,4}` versus `{}` fails. -/
theorem strides_check_equal_spec_witness :
    (demoStrides = demoStrides2 ∧ CheckEqual demoStrides demoStrides2 = .ok ()) ∧
    (demoStrides ≠ emptyStrides ∧
      isDimensionError (CheckEqual demoStrides emptyStrides)) :=
  ⟨⟨by decide, (strides_check_equal_spec demoStrides demoStrides2).1 (by decide)⟩,
   ⟨by decide, (strides_check_equal_spec demoStrides emptyStrides).2.1 (by decide)⟩⟩

def openParen : String := "("

def closeParen : String := ")"

def closeParenTrailing : String := ",)"

def sepStr : String := ", "

/-- Modelled from the spec: the comma-and-space separated body of the tuple
rendering, written as the streaming loop of the implementation — element,
then separator before each subsequent element (spec.md §4.3). -/
def stridesBody : List Int → String
  | [] => ""
  | [v] => ToString.toString v
  | v :: w :: rest => ToString.toString v ++ sepStr ++ stridesBody (w :: rest)

/-- Modelled from the spec: canonical text rendering — a tuple-like form with
a trailing comma retained exactly when `ndim = 1` (spec.md §4.3). -/
def Strides.toString (s : Strides) : String :=
  openParen ++ stridesBody s.values ++
    (if s.ndim = 1 then closeParenTrailing else closeParen)

theorem intercalate_go_nil (acc s : String) :
    String.intercalate.go acc s [] = acc := rfl

theorem intercalate_go_cons (acc s b : String) (t : List String) :
    String.intercalate.go acc s (b :: t) =
      String.intercalate.go (acc ++ s ++ b) s t := rfl

theorem intercalate_go_spec (s : String) (t : List String) :
    ∀ acc b : String,
      String.intercalate.go acc s (b :: t) =
        acc ++ s ++ String.intercalate.go b s t := by
  induction t with
  | nil => intro acc b; rw [intercalate_go_cons, intercalate_go_nil, intercalate_go_nil]
  | cons c t ih =>
    intro acc b
    rw [intercalate_go_cons, ih (acc ++ s ++ b) c, ih b c]
    simp [String.append_assoc]

theorem intercalate_cons₂ (s a b : String) (t : List String) :
    String.intercalate s (a :: b :: t) = a ++ s ++ String.intercalate s (b :: t) := by
  rw [String.intercalate, String.intercalate]
  exact intercalate_go_spec s t a b

/-- The loop-style body coincides with a comma-and-space join of the rendered
values: in particular no trailing separator is ever produced. -/
theorem stridesBody_eq_intercalate :
    ∀ l : List Int,
      stridesBody l = String.intercalate sepStr (l.map fun v => ToString.toString v)
  | [] => rfl
  | [_] => rfl
  | v :: w :: rest => by
    rw [stridesBody, stridesBody_eq_intercalate (w :: rest)]
    simp only [List.map_cons]
    rw [intercalate_cons₂]

/-- The conformance-test one-axis value `{4}`. -/
def strides4 : Strides := ⟨[4], by decide⟩

/-- C6: the canonical text rendering is `"()"` when `ndim = 0`, `"(v,)"` with
a trailing comma when `ndim = 1`, and `"(v0, v1, ..., vn-1)"` comma-and-space
separated with no trailing comma when `ndim ≥ 2`; so `{}` renders as `"()"`,
`{4}` as `"(4,)"`, and `{48,16,4}` as `"(48, 16, 4)"`. -/
theorem strides_to_string_canonical (s : Strides) :
    (s.ndim = 0 → s.toString = "()") ∧
    (∀ v : Int, s.values = [v] →
      s.toString = "(" ++ ToString.toString v ++ ",)") ∧
    (∀ (v w : Int) (rest : List Int), s.values = v :: w :: rest →
      s.toString =
        "(" ++
          String.intercalate ", "
            ((v :: w :: rest).map fun x => ToString.toString x) ++
          ")") ∧
    emptyStrides.toString = "()" ∧
    strides4.toString = "(4,)" ∧
    demoStrides.toString = "(48, 16, 4)" := by
  refine ⟨?_, ?_, ?_, by decide, by decide, by decide⟩
  · intro h
    have hv : s.values = [] := List.length_eq_zero.mp h
    simp [Strides.toString, Strides.ndim, hv, stridesBody, openParen, closeParen]
  · intro v hv
    simp [Strides.toString, Strides.ndim, hv, stridesBody, openParen,
      closeParenTrailing]
  · intro v w rest hv
    rw [Strides.toString, hv, stridesBody_eq_intercalate]
    simp [Strides.ndim, hv, openParen, closeParen, sepStr]

/-- C6 witness: the three general rendering rules applied at the concrete
conformance-test inputs. -/
theorem strides_to_string_canonical_witness :
    (emptyStrides.ndim = 0 ∧ emptyStrides.toString = "()") ∧
    (strides4.values = [4] ∧
      strides4.toString = "(" ++ ToString.toString (4 : Int) ++ ",)") ∧
    (demoStrides.values = 48 :: 16 :: [4] ∧
      demoStrides.toString =
        "(" ++
          String.intercalate ", "
            ((48 :: 16 :: [4] : List Int).map fun x => ToString.toString x) ++
          ")") :=
  ⟨⟨by decide, (strides_to_string_canonical emptyStrides).1 (by decide)⟩,
   ⟨by decide, (strides_to_string_canonical strides4).2.1 4 (by decide)⟩,
   ⟨by decide,
     (strides_to_string_canonical demoStrides).2.2.1 48 16 [4] (by decide)⟩⟩

/-- C7: for every sequence of at most `kMaxNdim` integers, constructing a
Strides from it (by any construction form) and reading it back through the
read-only view accessor yields the identical sequence in the same order;
forward iteration yields the sequence in axis order `0..ndim-1` and reverse
iteration yields it in order `ndim-1..0`. -/
theorem strides_round_trip (l : List Int) (h : l.length ≤ kMaxNdim) :
    ∃ s : Strides,
      Strides.ofList l = .ok s ∧ Strides.ofRange l = .ok s ∧
      Strides.ofSpan l = .ok s ∧
      s.span = l ∧ s.iterForward = l ∧ s.iterReversed = l.reverse :=
  ⟨⟨l, h⟩, by simp [Strides.ofList, Strides.ofSeq, h],
    by simp [Strides.ofRange, Strides.ofSeq, h],
    by simp [Strides.ofSpan, Strides.ofSeq, h], rfl, rfl, rfl⟩

/-- C7 witness: round trip at the conformance-test input `{48, 16, 4}` —
forward traversal yields `48, 16, 4` and reverse traversal `4, 16, 48`. -/
theorem strides_round_trip_witness :
    ([48, 16, 4] : List Int).length ≤ kMaxNdim ∧
    ∃ s : Strides,
      Strides.ofList [48, 16, 4] = .ok s ∧ Strides.ofRange [48, 16, 4] = .ok s ∧
      Strides.ofSpan [48, 16, 4] = .ok s ∧
      s.span = [48, 16, 4] ∧ s.iterForward = [48, 16, 4] ∧
      s.iterReversed = [4, 16, 48] :=
  ⟨by decide, by simpa using strides_round_trip [48, 16, 4] (by decide)⟩

/-- C8: constructing a Strides from a shape and a dtype produces a value
identical to constructing it from the same shape and the item byte size the
dtype resolves to; in particular shape `{2,3,4}` with a dtype of item size 4
yields `(48, 16, 4)`, the same as the shape-plus-item-size form. -/
theorem strides_dtype_delegation (shape : Shape) (d : Dtype) :
    Strides.ofShapeDtype shape d = Strides.ofShape shape d.itemSize ∧
    Strides.ofShapeDtype shape234 Dtype.kInt32 = Strides.ofShape shape234 4 ∧
    (Strides.ofShapeDtype shape234 Dtype.kInt32).values = [48, 16, 4] :=
  ⟨rfl, rfl, by decide⟩

end xchainer

namespace chainerx

/-!
Embedding of chainerx/routines/loss.cc.  An n-element array is a function
`Fin n → ℝ`; two arrays have the same shape exactly when they share the index
type.  The elementwise primitives the loss layer composes (`Absolute`,
`Square`, `Exp`, `Log1p`, `NotEqual`, `GreaterEqual`/`AsType`, `OnesLike`,
`ZerosLike`) are external collaborators of this slice (spec.md §6) and are
modelled from the spec as pointwise real operations; subtraction, negation
and multiplication of arrays are the pointwise Pi-type operations.  The
section is noncomputable only because real transcendental functions carry no
executable code; every property below is settled symbolically.
-/

noncomputable section

/-- Modelled from the spec: elementwise absolute value (`Absolute`,
spec.md §6). -/
def Absolute {n : Nat} (a : Fin n → ℝ) : Fin n → ℝ := fun i => |a i|

/-- Modelled from the spec: elementwise square (`Square`, spec.md §6). -/
def Square {n : Nat} (a : Fin n → ℝ) : Fin n → ℝ := fun i => a i * a i

/-- Modelled from the spec: elementwise exponential (`Exp`, spec.md §6). -/
def Exp {n : Nat} (a : Fin n → ℝ) : Fin n → ℝ := fun i => Real.exp (a i)

/-- Modelled from the spec: elementwise `log(1 + x)` (`Log1p`, spec.md §6). -/
def Log1p {n : Nat} (a : Fin n → ℝ) : Fin n → ℝ := fun i => Real.log (1 + a i)

/-- Modelled from the spec: an array of ones with the shape of `a`
(`OnesLike`, spec.md §6). -/
def OnesLike {n : Nat} (_ : Fin n → ℝ) : Fin n → ℝ := fun _ => 1

/-- Modelled from the spec: an array of zeros with the shape of `a`
(`ZerosLike`, spec.md §6). -/
def ZerosLike {n : Nat} (_ : Fin n → ℝ) : Fin n → ℝ := fun _ => 0

/-- Modelled from the spec: the elementwise comparison predicate `NotEqual`,
already coerced to the numeric 0/1 indicator the loss layer multiplies by
(spec.md §6). -/
def NotEqual {n : Nat} (a b : Fin n → ℝ) : Fin n → ℝ :=
  fun i => if a i ≠ b i then 1 else 0

/-- Modelled from the spec: the elementwise comparison predicate
`GreaterEqual` followed by the `AsType` coercion onto the numeric dtype,
i.e. the 0/1 indicator of `a i ≥ b i` (spec.md §6). -/
def GreaterEqualAsType {n : Nat} (a b : Fin n → ℝ) : Fin n → ℝ :=
  fun i => if b i ≤ a i then 1 else 0

/-- `AbsoluteError(x1, x2) = Absolute(x1 - x2)` (loss.cc line 14). -/
def AbsoluteError {n : Nat} (x1 x2 : Fin n → ℝ) : Fin n → ℝ := Absolute (x1 - x2)

/-- `SquaredError(x1, x2) = Square(x1 - x2)` (loss.cc line 16). -/
def SquaredError {n : Nat} (x1 x2 : Fin n → ℝ) : Fin n → ℝ := Square (x1 - x2)

/-- `SigmoidCrossEntropy` (loss.cc lines 29-33): the ignore label is
`-OnesLike(x2)`, the ignore mask is `NotEqual(x2, ignore_label)`, and the
result is
`-(ignore_mask * (x1 * (x2 - GreaterEqual(x1, 0).AsType) - Log1p(Exp(-Absolute(x1)))))`. -/
def SigmoidCrossEntropy {n : Nat} (x1 x2 : Fin n → ℝ) : Fin n → ℝ :=
  let ignore_label := -(OnesLike x2)
  let ignore_mask := NotEqual x2 ignore_label;
  -(ignore_mask *
    (x1 * (x2 - GreaterEqualAsType x1 (ZerosLike x1)) -
      Log1p (Exp (-(Absolute x1)))))

/-- C9: every element of `SigmoidCrossEntropy(x1, x2)` whose corresponding
label element `x2 i` equals `-1` (the ignore label) is zero, regardless of the
value of the corresponding `x1` element: the ignore mask multiplies that
element's entire contribution by zero. -/
theorem sigmoid_cross_entropy_ignore_label {n : Nat} (x1 x2 : Fin n → ℝ)
    (i : Fin n) (h : x2 i = -1) : SigmoidCrossEntropy x1 x2 i = 0 := by
  simp [SigmoidCrossEntropy, NotEqual, OnesLike, h]

/-- C9 witness: with a one-element label array holding `-1`, the loss element
is zero even though the logit element is the arbitrary value 5. -/
theorem sigmoid_cross_entropy_ignore_label_witness :
    ((fun _ => (-1 : ℝ)) : Fin 1 → ℝ) 0 = -1 ∧
    SigmoidCrossEntropy (fun _ => (5 : ℝ)) (fun _ => (-1 : ℝ)) (0 : Fin 1) = 0 :=
  ⟨rfl, sigmoid_cross_entropy_ignore_label (fun _ => (5 : ℝ))
    (fun _ => (-1 : ℝ)) 0 rfl⟩

/-- C10: `AbsoluteError` and `SquaredError` are symmetric in their two
arguments: `AbsoluteError(x1, x2) = AbsoluteError(x2, x1)` and
`SquaredError(x1, x2) = SquaredError(x2, x1)` for all same-shaped arrays,
since `|x1 - x2| = |x2 - x1|` and `(x1 - x2)^2 = (x2 - x1)^2` pointwise. -/
theorem error_functions_symmetric {n : Nat} (x1 x2 : Fin n → ℝ) :
    AbsoluteError x1 x2 = AbsoluteError x2 x1 ∧
    SquaredError x1 x2 = SquaredError x2 x1 := by
  constructor
  · funext i
    simp only [AbsoluteError, Absolute, Pi.sub_apply]
    exact abs_sub_comm _ _
  · funext i
    simp only [SquaredError, Square, Pi.sub_apply]
    ring

end

end chainerx
